import Mathlib

/-!
A verification development for `gcore_point.py`, a GDB extension that
installs breakpoints which automatically generate core dumps when hit.

Modelling choices (shallow embedding):

* Host side effects (`gdb.execute`, `print`) are recorded as an explicit
  trace of `HostAction`s returned by each operation.
* A `GDBEventOneShot` binding is a record of its connection state and its
  `continue_after_run` flag; the event registry's view of a binding armed by
  `CoreDumpBP.stop` is a `Binding` record.
* The subclass hook `run_event` is modelled by its observable behaviour
  (`RunBehavior`): the actions it performs and whether it raises.  For
  `GCoreOnStop.run_event` this behaviour is derived from a host oracle
  `execOk` saying which `gdb.execute` commands succeed.
* Exception propagation out of a Python call is modelled by an
  `Option String` (`some exnName` when an exception escapes the call).
* Python's `str.split(" ")` is embedded as a recursive function on the
  argument's character list, keeping empty fields exactly as Python does.

A crucial point of fidelity: in `GDBEventOneShot.__call__` the source reads
`except e:` where `e` is an undefined name.  Python evaluates the expression
after `except` only when the `try` body has raised; the lookup of the unbound
name `e` then raises `NameError`, which propagates out of `__call__` before
the `self._registry.disconnect(self)` line is reached.  So on the failure
path the handler body (`print(e)`, `force_stop = True`) is dead code, the
binding stays connected, and the call propagates `NameError`; on the success
path the handler is never evaluated and the call behaves as documented.
-/

namespace GcorePoint

/-- An observable side effect on the host debugger: a command string passed
to `gdb.execute`, or a message printed to the console. -/
inductive HostAction where
  | execute (cmd : String)
  | printed (msg : String)
  deriving DecidableEq, Repr

/-- State of a `GDBEventOneShot` binding: whether it is currently connected
to its registry, and the `continue_after_run` flag stored by `__init__`
(line 32).  A freshly constructed binding is connected, because the
constructor ends with `self._registry.connect(self)` (line 34). -/
structure OneShot where
  connected : Bool
  continueAfterRun : Bool
  deriving DecidableEq, Repr

/-- Observable behaviour of one invocation of the subclass hook
`run_event`: the host actions it performs, and `some exn` when it raises
exception `exn` after performing them (`none` when it returns normally). -/
structure RunBehavior where
  actions : List HostAction
  raises : Option String
  deriving DecidableEq, Repr

/-- Result of one invocation of `GDBEventOneShot.__call__`: the binding
state afterwards, the host actions performed during the call, and
`some exn` when the call propagates exception `exn` to its caller (the
registry's dispatch loop). -/
structure CallResult where
  binding : OneShot
  actions : List HostAction
  raised : Option String
  deriving DecidableEq, Repr

/-- `GDBEventOneShot.__call__` (gcore_point.py lines 36-65).

Success path (`run_event` returns normally): the `except` clause is never
evaluated, `force_stop` is `False`, the binding is disconnected (line 59)
and, if `self._continue`, `gdb.execute("continue")` runs (lines 64-65).

Failure path (`run_event` raises): Python evaluates the undefined name `e`
in `except e:` (line 55) while matching the handler; that lookup raises
`NameError`, which propagates out of `__call__` at once.  The handler body
(`print(e)`, `force_stop = True`) and the `disconnect` and `continue` lines
are never reached, so the binding state is unchanged. -/
def GDBEventOneShot.call (run : RunBehavior) (b : OneShot) : CallResult :=
  match run.raises with
  | none =>
      { binding := { b with connected := false }
        actions := run.actions ++
          (if b.continueAfterRun then [HostAction.execute "continue"] else [])
        raised := none }
  | some _ =>
      { binding := b
        actions := run.actions
        raised := some "NameError" }

/-- One delivery of a stop event by the registry to a binding: the registry
invokes the callback exactly when the binding is still connected.  Returns
the binding state afterwards and how many times `run_event` was invoked
(0 or 1).  When the callback propagates an exception, gdb's dispatch loop
reports it and carries on; the binding's registration is untouched. -/
def deliver (run : RunBehavior) (b : OneShot) : OneShot × Nat :=
  if b.connected then ((GDBEventOneShot.call run b).binding, 1) else (b, 0)

/-- A sequence of stop-event deliveries to one binding, counting the total
number of `run_event` invocations on that binding. -/
def deliverAll (runs : List RunBehavior) (b : OneShot) : OneShot × Nat :=
  match runs with
  | [] => (b, 0)
  | r :: rs =>
      let step := deliver r b
      let rest := deliverAll rs step.1
      (rest.1, step.2 + rest.2)

/-- `GCoreOnStop.run_event` (lines 81-85): executes `gcore <file_name>` via
`gdb.execute`.  `execOk` is the host oracle saying which command strings
succeed; when the command fails, `gdb.execute` raises a `gdb.error` and the
dump action does not take effect. -/
def GCoreOnStop.run_event (execOk : String → Bool) (file_name : String) :
    RunBehavior :=
  if execOk ("gcore " ++ file_name) then
    { actions := [HostAction.execute ("gcore " ++ file_name)], raises := none }
  else
    { actions := [], raises := some "gdb.error" }

/-- The core file name computed by `CoreDumpBP.stop` (lines 120-122): the
label part is `f"{self._core_name}."` when a label was supplied and the
empty string otherwise, and the file name is
`f"core.{core_name_prefix}{inferior.pid}.{self.hit_count}"`. -/
def coreFileName (core_name : Option String) (pid : Nat) (hit_count : Nat) :
    String :=
  let labelDot :=
    match core_name with
    | some n => n ++ "."
    | none => ""
  "core." ++ labelDot ++ toString pid ++ "." ++ toString hit_count

/-- A binding armed on the host's stop-event registry, as the registry sees
it: the core file name it will dump to, and its resume flag. -/
structure Binding where
  fileName : String
  continueAfterRun : Bool
  deriving DecidableEq, Repr

/-- `CoreDumpBP.stop` (lines 104-135): reads the selected inferior's pid and
the host hit counter, computes the core file name, constructs one
`GCoreOnStop` — whose constructor subscribes it to `gdb.events.stop` with
the default `continue_after_run=True` and does not run it — and returns
`True` unconditionally.  The result is the registry afterwards, the host
actions performed during `stop` itself, and the returned stop decision. -/
def CoreDumpBP.stop (core_name : Option String) (pid : Nat) (hit_count : Nat)
    (registry : List Binding) : List Binding × List HostAction × Bool :=
  (registry ++
      [{ fileName := coreFileName core_name pid hit_count,
         continueAfterRun := true }],
    [], true)

/-- Modelled from the spec: the host breakpoint object's per-instance hit
counter (`self.hit_count`, owned by gdb and only read by this code, so its
dynamics are not under src/).  Per the spec and the docstring of
`CoreDumpBP.stop`, the value observed at the 0-indexed n-th hit of a given
breakpoint instance is 0 at the first hit and increments by exactly one per
subsequent hit of the same instance, never resetting. -/
def hitCountAt : Nat → Nat
  | 0 => 0
  | n + 1 => hitCountAt n + 1

/-- Python's `str.split(" ")` (line 165: `arg.split(" ")`) on the argument's
character list: splits at every single space, keeping empty fields, so
`"".split(" ")` is `[""]` and `" ".split(" ")` is `["", ""]`. -/
def pySplitSpace : List Char → List (List Char)
  | [] => [[]]
  | c :: rest =>
      if c = ' ' then [] :: pySplitSpace rest
      else
        match pySplitSpace rest with
        | t :: ts => (c :: t) :: ts
        | [] => [[c]]

/-- `GcorePointCmd.invoke` (lines 156-172): on an empty argument string it
raises `gdb.GdbError` — a usage error reported by gdb, not a crash — and
constructs nothing; otherwise it splits the argument on single spaces,
takes `argv[0]` as the breakpoint spec and, when a second token exists,
`argv[1]` as the core name, and constructs exactly one `CoreDumpBP`.
Result: the error message raised (if any) and the `(spec, core_name)` pairs
of the breakpoints constructed.  The final match arm is unreachable since
`pySplitSpace` never returns an empty list. -/
def GcorePointCmd.invoke (arg : List Char) :
    Option String × List (List Char × Option (List Char)) :=
  if arg = [] then
    (some "The gcore-point command must be called with arguments.", [])
  else
    match pySplitSpace arg with
    | spec :: label :: _ => (none, [(spec, some label)])
    | [spec] => (none, [(spec, none)])
    | [] => (some "IndexError", [])

/-- String concatenation is associative (helper, via the data lists). -/
theorem string_append_assoc (a b c : String) :
    a ++ b ++ c = a ++ (b ++ c) := by
  apply String.ext
  simp [String.data_append, List.append_assoc]

/-- `pySplitSpace` never returns the empty list of tokens (helper). -/
theorem pySplitSpace_ne_nil (l : List Char) : pySplitSpace l ≠ [] := by
  induction l with
  | nil => simp [pySplitSpace]
  | cons c rest ih =>
      by_cases hc : c = ' '
      · simp [pySplitSpace, hc]
      · simp only [pySplitSpace, if_neg hc]
        cases h : pySplitSpace rest with
        | nil => exact absurd h ih
        | cons t ts => simp

/-- Splitting a string of `n` spaces yields `n + 1` empty tokens
(helper). -/
theorem pySplitSpace_replicate_space (n : Nat) :
    pySplitSpace (List.replicate n ' ') = List.replicate (n + 1) [] := by
  induction n with
  | zero => rfl
  | succ m ih => simp [List.replicate_succ, pySplitSpace, ih]

/-- C1: refuted by the code.  When `run_event` raises, `__call__` does NOT
unsubscribe the binding: the `except e:` clause evaluates the undefined name
`e` and raises `NameError` before the `disconnect` line, so at this concrete
failing input the binding is still connected after the call — a leaked
subscription, contradicting the claim (and the code's own docstring, which
says the try-except ensures disconnection even on exception). -/
theorem C1_failure_leaks_subscription :
    (GDBEventOneShot.call { actions := [], raises := some "gdb.error" }
        { connected := true, continueAfterRun := true }).binding.connected
      = true := rfl

/-- C2: refuted by the code.  At a concrete input where `run_event` raises,
`__call__` propagates `NameError` out to its caller and performs no host
action at all — in particular nothing is printed — contradicting the claim
that the failure is caught at the binder boundary and reported. -/
theorem C2_failure_escapes_binder :
    (GDBEventOneShot.call { actions := [], raises := some "gdb.error" }
        { connected := true, continueAfterRun := true }).raised
        = some "NameError"
    ∧ (GDBEventOneShot.call { actions := [], raises := some "gdb.error" }
        { connected := true, continueAfterRun := true }).actions = [] :=
  ⟨rfl, rfl⟩

/-- C3: the file name computed by `CoreDumpBP.stop` is the pure function
`coreFileName` of the label, pid and hit count, equal to
`core.<label>.<pid>.<hitCount>` with a label and `core.<pid>.<hitCount>`
without one; the host hit counter observed at the n-th hit is 0 at the
first hit, increments by exactly 1 per subsequent hit of the same instance,
and never resets. -/
theorem C3_file_name_format (l : String) (pid n : Nat) :
    coreFileName (some l) pid (hitCountAt n)
        = "core." ++ l ++ "." ++ toString pid ++ "." ++ toString (hitCountAt n)
    ∧ coreFileName none pid (hitCountAt n)
        = "core." ++ toString pid ++ "." ++ toString (hitCountAt n)
    ∧ hitCountAt 0 = 0
    ∧ ∀ k : Nat, hitCountAt (k + 1) = hitCountAt k + 1 := by
  refine ⟨?_, ?_, rfl, fun k => rfl⟩
  · simp [coreFileName, string_append_assoc]
  · simp [coreFileName]

/-- C4: refuted by the code.  A binding whose `run_event` raises stays
connected (see C1), so gdb's dispatch re-invokes it on the next stop event:
after two event deliveries to a fresh binding whose hook fails, `run_event`
has been invoked twice, contradicting the at-most-one-invocation claim. -/
theorem C4_failed_binding_reinvoked :
    (deliverAll
        [{ actions := [], raises := some "gdb.error" },
         { actions := [], raises := some "gdb.error" }]
        { connected := true, continueAfterRun := true }).2 = 2 := rfl

/-- C5: when the `gcore` command succeeds and resume-after-run is true
(the `GCoreOnStop` default), the invocation's action trace is exactly the
dump command followed by a single `continue` — one resume, issued after the
dump. -/
theorem C5_success_resumes_once_after_dump (c : Bool) (f : String)
    (execOk : String → Bool) (h : execOk ("gcore " ++ f) = true) :
    (GDBEventOneShot.call (GCoreOnStop.run_event execOk f)
        { connected := c, continueAfterRun := true }).actions
      = [HostAction.execute ("gcore " ++ f), HostAction.execute "continue"] := by
  simp [GDBEventOneShot.call, GCoreOnStop.run_event, h]

/-- Witness for C5 at a concrete binding, file name and host oracle. -/
theorem C5_success_resumes_once_after_dump_witness :
    (GDBEventOneShot.call
        (GCoreOnStop.run_event (fun _ => true) "core.4242.0")
        { connected := true, continueAfterRun := true }).actions
      = [HostAction.execute ("gcore " ++ "core.4242.0"),
         HostAction.execute "continue"] :=
  C5_success_resumes_once_after_dump true "core.4242.0" (fun _ => true) rfl

/-- C6: when the `gcore` command fails, `run_event` raises and the
invocation issues no `continue` command to the host, whatever the binding's
configuration (connection state and resume flag are arbitrary). -/
theorem C6_failure_suppresses_resume (b : OneShot) (f : String)
    (execOk : String → Bool) (h : execOk ("gcore " ++ f) = false) :
    HostAction.execute "continue" ∉
      (GDBEventOneShot.call (GCoreOnStop.run_event execOk f) b).actions := by
  simp [GDBEventOneShot.call, GCoreOnStop.run_event, h]

/-- Witness for C6 at a concrete binding, file name and host oracle. -/
theorem C6_failure_suppresses_resume_witness :
    HostAction.execute "continue" ∉
      (GDBEventOneShot.call
          (GCoreOnStop.run_event (fun _ => false) "core.4242.0")
          { connected := true, continueAfterRun := true }).actions :=
  C6_failure_suppresses_resume
    { connected := true, continueAfterRun := true } "core.4242.0"
    (fun _ => false) rfl

/-- C7: every hit of a `CoreDumpBP` subscribes exactly one new binding to
the stop-event registry — carrying the computed file name and
resume-after-run enabled — performs no host action during `stop` itself
(the dump is deferred), and returns `True` unconditionally. -/
theorem C7_stop_arms_one_binding_and_stops (core_name : Option String)
    (pid hit_count : Nat) (registry : List Binding) :
    (CoreDumpBP.stop core_name pid hit_count registry).1
        = registry ++
            [{ fileName := coreFileName core_name pid hit_count,
               continueAfterRun := true }]
    ∧ (CoreDumpBP.stop core_name pid hit_count registry).2.1 = []
    ∧ (CoreDumpBP.stop core_name pid hit_count registry).2.2 = true :=
  ⟨rfl, rfl, rfl⟩

/-- C8: invoking the command with an empty argument string reports the
usage error via `gdb.GdbError` and constructs zero breakpoints. -/
theorem C8_empty_arg_usage_error :
    GcorePointCmd.invoke []
        = (some "The gcore-point command must be called with arguments.", [])
    ∧ (GcorePointCmd.invoke []).2.length = 0 := ⟨rfl, rfl⟩

/-- C9: an argument string of `n ≥ 1` spaces does not trigger the usage
error: it splits into `n + 1` empty tokens, the first empty token becomes
the location spec, and one breakpoint creation is attempted with the empty
spec string (and the empty second token as label). -/
theorem C9_spaces_only_no_usage_error (n : Nat) (h : 1 ≤ n) :
    GcorePointCmd.invoke (List.replicate n ' ')
      = (none, [([], some [])]) := by
  obtain ⟨m, rfl⟩ : ∃ m, n = m + 1 :=
    ⟨n - 1, (Nat.succ_pred_eq_of_pos h).symm⟩
  simp only [GcorePointCmd.invoke, pySplitSpace_replicate_space]
  simp [List.replicate_succ]

/-- Witness for C9 at the one-space argument string. -/
theorem C9_spaces_only_no_usage_error_witness :
    GcorePointCmd.invoke (List.replicate 1 ' ')
      = (none, [([], some [])]) :=
  C9_spaces_only_no_usage_error 1 (by decide)

/-- C10: when the argument splits into three or more tokens, only the first
token (spec) and second token (label) are used — the invocation succeeds
with exactly that pair, independent of the remaining tokens, with no
error — and, as the witness at `"a  b"` shows, consecutive spaces yield an
empty-string second token that is used as the label. -/
theorem C10_extra_tokens_ignored (arg t0 t1 : List Char)
    (rest : List (List Char)) (h : pySplitSpace arg = t0 :: t1 :: rest)
    (_hrest : rest ≠ []) :
    GcorePointCmd.invoke arg = (none, [(t0, some t1)]) := by
  have harg : arg ≠ [] := by
    intro he
    subst he
    simp [pySplitSpace] at h
  simp [GcorePointCmd.invoke, harg, h]

/-- Witness for C10 at the argument `"a  b"` (two consecutive spaces):
three tokens `["a", "", "b"]`, and the empty second token becomes the
label. -/
theorem C10_extra_tokens_ignored_witness :
    GcorePointCmd.invoke ['a', ' ', ' ', 'b']
      = (none, [(['a'], some [])]) :=
  C10_extra_tokens_ignored ['a', ' ', ' ', 'b'] ['a'] [] [['b']]
    (by decide) (by decide)

end GcorePoint
